import Mathlib

/-!
Shallow embedding of the two scraper adapters of the `hianime-cli`
repository (`mov_cli_hianime/scraper.py` and
`myanimeplugin/animepahe/scraper.py`).

Decoded upstream JSON bodies are modelled by `JsonVal`; Python runtime
exceptions (KeyError, IndexError, TypeError, AttributeError, ValueError)
are modelled by `Except String`.  The HTTP transport is external: each
adapter operation takes the decoded response(s) it would fetch as explicit
arguments.
-/

set_option maxHeartbeats 1000000

namespace HiAnimeCli

/-- A decoded JSON value, as produced by Python `json.loads`. -/
inductive JsonVal where
  | null
  | bool (b : Bool)
  | int (n : Int)
  | str (s : String)
  | arr (xs : List JsonVal)
  | obj (fields : List (String × JsonVal))
  deriving Repr

/-- Python truthiness of a decoded JSON value (`if not response: ...`). -/
def truthy : JsonVal → Bool
  | .null => false
  | .bool b => b
  | .int n => n != 0
  | .str s => s ≠ ""
  | .arr xs => ¬ xs.isEmpty
  | .obj fs => ¬ fs.isEmpty

/-- Python `v[k]` subscripting with a string key: KeyError when the key is
absent from a dict, TypeError when `v` is not a dict. -/
def pyIndex (v : JsonVal) (k : String) : Except String JsonVal :=
  match v with
  | .obj fs =>
    match fs.lookup k with
    | some x => .ok x
    | none => .error ("KeyError: " ++ k)
  | _ => .error "TypeError: value is not subscriptable by str"

/-- Whether `needle` occurs as a contiguous run inside `hay`. -/
def hasSubRun (needle : List Char) : List Char → Bool
  | [] => needle.isEmpty
  | c :: rest => needle.isPrefixOf (c :: rest) || hasSubRun needle rest

/-- Python `k in v` for a string `k`: key membership for dicts, element
membership for lists, substring test for strings, TypeError otherwise. -/
def pyContains (v : JsonVal) (k : String) : Except String Bool :=
  match v with
  | .obj fs => .ok (fs.any (fun p => p.1 = k))
  | .arr xs => .ok (xs.any (fun x => match x with | .str t => t = k | _ => false))
  | .str s => .ok (hasSubRun k.data s.data)
  | _ => .error "TypeError: argument is not iterable"

/-- Python `v.get(k, dflt)`: dict lookup with a default; AttributeError when
`v` is not a dict. -/
def pyGet (v : JsonVal) (k : String) (dflt : JsonVal) : Except String JsonVal :=
  match v with
  | .obj fs => .ok ((fs.lookup k).getD dflt)
  | _ => .error "AttributeError: object has no attribute get"

/-- Python `xs[i]` for a nonnegative integer index on a decoded value:
list indexing with IndexError, TypeError on non-sequences. -/
def pyGetItemNat (v : JsonVal) (i : Nat) : Except String JsonVal :=
  match v with
  | .arr xs =>
    match xs.get? i with
    | some x => .ok x
    | none => .error "IndexError: list index out of range"
  | _ => .error "TypeError: value is not subscriptable by int"

/-- Iterating a decoded value as Python `for x in v` over a JSON body:
lists iterate their elements; the empty string iterates to nothing; any
other shape is modelled as a TypeError. -/
def pyToList (v : JsonVal) : Except String (List JsonVal) :=
  match v with
  | .arr xs => .ok xs
  | .str "" => .ok []
  | _ => .error "TypeError: value is not iterable as a sequence"

/-- Numeric reading of a decoded value for `>` comparison against an int
literal; Python booleans are ints (`True > 1` is `False`). -/
def pyToInt (v : JsonVal) : Except String Int :=
  match v with
  | .int n => .ok n
  | .bool b => .ok (if b then 1 else 0)
  | _ => .error "TypeError: not comparable with int"

/-- Python `==` between a decoded value and an int (`ep["number"] ==
episode_num`): ints compare numerically, bools compare as 0/1, every other
shape compares unequal without raising. -/
def jsonEqInt (v : JsonVal) (n : Int) : Bool :=
  match v with
  | .int m => m == n
  | .bool b => (if b then (1 : Int) else 0) == n
  | _ => false

/-- Python `==` between a decoded value and a string literal
(`track["kind"] == "captions"`). -/
def jsonEqStr (v : JsonVal) (s : String) : Bool :=
  match v with
  | .str t => t == s
  | _ => false

/-- Whether a decoded value may be a Python dict key (lists and dicts are
unhashable). -/
def pyHashable : JsonVal → Bool
  | .arr _ => false
  | .obj _ => false
  | _ => true

/-- Python `==` between two hashable decoded values, as used for dict key
identity (`True` and `1` are the same key). -/
def keyEq (a b : JsonVal) : Bool :=
  match a, b with
  | .null, .null => true
  | .str s, .str t => s == t
  | .int m, .int n => m == n
  | .bool x, .bool y => x == y
  | .bool x, .int n => (if x then (1 : Int) else 0) == n
  | .int m, .bool y => m == (if y then (1 : Int) else 0)
  | _, _ => false

/-- Python `d[k] = v` on an insertion-ordered dict modelled as an
association list: update in place when the key is present (keeping the
original key object and position), append otherwise; TypeError for an
unhashable key. -/
def pyDictSet (d : List (JsonVal × α)) (k : JsonVal) (v : α) :
    Except String (List (JsonVal × α)) :=
  if pyHashable k then
    .ok (if d.any (fun p => keyEq p.1 k) then
           d.map (fun p => if keyEq p.1 k then (p.1, v) else p)
         else d ++ [(k, v)])
  else .error "TypeError: unhashable type"

/-- Python list slicing `xs[:limit]` with an optional int bound: `take`
for a nonnegative bound, `len(xs) + limit` elements for a negative one. -/
def pySlice (limit : Option Int) (xs : List α) : List α :=
  match limit with
  | none => xs
  | some n => if 0 ≤ n then xs.take n.toNat else xs.take (xs.length - n.natAbs)

mutual

/-- Python `str()` of a decoded JSON value, as used when such a value is
interpolated into an f-string. -/
def pyStr : JsonVal → String
  | .null => "None"
  | .bool true => "True"
  | .bool false => "False"
  | .int n => toString n
  | .str s => s
  | .arr xs => "[" ++ String.intercalate ", " (pyReprList xs) ++ "]"
  | .obj fs => "\x7b" ++ String.intercalate ", " (pyReprFields fs) ++ "\x7d"

/-- Python `repr()` of a decoded JSON value (strings gain quotes). -/
def pyRepr : JsonVal → String
  | .str s => "\x27" ++ s ++ "\x27"
  | v => pyStr v

/-- `repr` of each element of a decoded list. -/
def pyReprList : List JsonVal → List String
  | [] => []
  | x :: xs => pyRepr x :: pyReprList xs

/-- `repr` of each key/value pair of a decoded object. -/
def pyReprFields : List (String × JsonVal) → List String
  | [] => []
  | (k, v) :: fs => ("\x27" ++ k ++ "\x27: " ++ pyRepr v) :: pyReprFields fs

end

/-- Modelled from the spec: the host library result-kind enum
(`MetadataType.MULTI` / `MetadataType.SINGLE`); the host package
`mov_cli` is outside this repository. -/
inductive MetadataType where
  | multi
  | single
  deriving DecidableEq, Repr

/-- Modelled from the spec: the host library `EpisodeSelector` type
(caller-supplied request for an episode number, plus a season). -/
structure EpisodeSelector where
  episode : Int
  season : Int := 1
  deriving DecidableEq, Repr

/-- Modelled from the spec: the host library `Metadata` catalog entry
`{id, title, kind}` plus its optional `year` attribute.  Field values are
decoded upstream JSON values, stored exactly as the adapter passed them. -/
structure Metadata where
  id : JsonVal
  title : JsonVal
  type : MetadataType
  year : JsonVal := .null
  deriving Repr

/-- The kind of an assembled source descriptor. -/
inductive DKind where
  | single
  | multi
  deriving DecidableEq, Repr

/-- A value passed as the `subtitles=` argument of a descriptor
constructor: Python `None`, a label-to-file dict, or a plain list. -/
inductive SubVal where
  | pyNone
  | dict (entries : List (JsonVal × JsonVal))
  | list (entries : List JsonVal)
  deriving Repr

/-- Modelled from the spec: the host library `Multi`/`Single` source
descriptors, recorded as the constructor call the adapter made.  A `none`
field means the adapter did not pass that keyword argument at all. -/
structure Descriptor where
  kind : DKind
  url : JsonVal
  title : JsonVal
  referrer : Option String := none
  episode : Option (Option EpisodeSelector) := none
  year : Option JsonVal := none
  subtitles : Option SubVal := none
  deriving Repr

/-- `episode.episode if episode and episode.episode else 1`: the episode
number requested by a selector, defaulting to 1 when the selector object
is `None` or its episode number is falsy (zero). -/
def defaultEpisodeNum (sel : Option EpisodeSelector) : Int :=
  match sel with
  | some s => if s.episode ≠ 0 then s.episode else 1
  | none => 1

/-! ### JSON-API adapter (`mov_cli_hianime/scraper.py`, `HiAnimeScraper`)

`_request` catches every transport/decode error and substitutes the dict
`{"data": {}}`, so from the viewpoint of the adapter every fetch yields
some decoded `JsonVal`; operations below take those decoded responses as
arguments. -/

/-- The decoded body `_request` substitutes when the underlying fetch or
JSON decode fails: `{"data": {}}`. -/
def hianimeRequestFailure : JsonVal := .obj [("data", .obj [])]

/-- The guard `not response or "data" not in response or k not in
response["data"]` used by all three `HiAnimeScraper` operations. -/
def hianimeMissing (response : JsonVal) (k : String) : Except String Bool := do
  if ¬ truthy response then return true
  else
    let hasData ← pyContains response "data"
    if ¬ hasData then return true
    else
      let d ← pyIndex response "data"
      let hasK ← pyContains d k
      return ¬ hasK

/-- One search hit turned into a `Metadata`: `id=anime["id"]`,
`title=anime["name"]`, `MULTI if anime["episodes"]["sub"] > 1 else
SINGLE`. -/
def hianimeToMetadata (anime : JsonVal) : Except String Metadata := do
  let id ← pyIndex anime "id"
  let name ← pyIndex anime "name"
  let eps ← pyIndex anime "episodes"
  let sub ← pyIndex eps "sub"
  let n ← pyToInt sub
  return { id := id, title := name,
           type := if 1 < n then .multi else .single }

/-- `HiAnimeScraper.search`.  The boolean records whether the upstream
search request was issued; `response` is the decoded body of that request
when it is. -/
def hianimeSearch (query : String) (limit : Option Int) (response : JsonVal) :
    Bool × Except String (List Metadata) :=
  if query = "" then (false, .ok [])
  else
    (true, do
      let missing ← hianimeMissing response "animes"
      if missing then return []
      else
        let d ← pyIndex response "data"
        let animes ← pyIndex d "animes"
        let animesL ← pyToList animes
        (pySlice limit animesL).mapM hianimeToMetadata)

/-- One iteration of the `HiAnimeScraper.scrape_episodes` loop:
`episode_map[ep["number"]] = 1`. -/
def hianimeEpisodesStep (m : List (JsonVal × Int)) (ep : JsonVal) :
    Except String (List (JsonVal × Int)) := do
  let n ← pyIndex ep "number"
  pyDictSet m n 1

/-- `HiAnimeScraper.scrape_episodes`: build `{ep["number"]: 1}` over the
listing, degrading to the sentinel `{None: 1}` when the listing is
unavailable or produces an empty map. -/
def hianimeScrapeEpisodes (metadata : Metadata) (response : JsonVal) :
    Except String (List (JsonVal × Int)) := do
  let missing ← hianimeMissing response "episodes"
  if missing then return [(.null, 1)]
  else
    let d ← pyIndex response "data"
    let episodes ← pyIndex d "episodes"
    let epsL ← pyToList episodes
    let epMap ← epsL.foldlM hianimeEpisodesStep ([] : List (JsonVal × Int))
    if epMap.isEmpty then return [(.null, 1)]
    else return epMap

/-- The first listing element whose `ep["number"]` compares `==` to `n`
(first match wins), scanning left to right; key errors while scanning
propagate. -/
def hianimeFindEpisode (eps : List JsonVal) (n : Int) : Except String (Option JsonVal) :=
  match eps with
  | [] => .ok none
  | ep :: rest => do
    let num ← pyIndex ep "number"
    if jsonEqInt num n then return (some ep)
    else hianimeFindEpisode rest n

/-- The target-selection step of `HiAnimeScraper.scrape` (lines 108-130):
`Multi` scans for the requested number, `Single` unconditionally takes
`episodes[0]` when the listing is truthy. -/
def hianimeSelectTarget (t : MetadataType) (sel : Option EpisodeSelector)
    (episodes : JsonVal) : Except String (Option JsonVal) :=
  match t with
  | .multi => do
    let epsL ← pyToList episodes
    hianimeFindEpisode epsL (defaultEpisodeNum sel)
  | .single =>
    if truthy episodes then do
      let first ← pyGetItemNat episodes 0
      return some first
    else .ok none

/-- The placeholder `Single(url="", title=metadata.title, referrer="",
year=metadata.year)` returned by `HiAnimeScraper.scrape` failure paths. -/
def hianimePlaceholderSingle (metadata : Metadata) : Descriptor :=
  { kind := .single, url := .str "", title := metadata.title,
    referrer := some "", year := some metadata.year }

/-- The placeholder `Multi(url="", title=metadata.title, referrer="",
episode=episode, subtitles=None)` returned by `HiAnimeScraper.scrape`
failure paths. -/
def hianimePlaceholderMulti (metadata : Metadata) (sel : Option EpisodeSelector) :
    Descriptor :=
  { kind := .multi, url := .str "", title := metadata.title,
    referrer := some "", episode := some sel, subtitles := some .pyNone }

/-- The caption-collecting loop of `HiAnimeScraper.scrape`: keep tracks
whose `kind == "captions"`, keyed `label -> file`. -/
def hianimeSubtitles (tracks : List JsonVal) : Except String (List (JsonVal × JsonVal)) :=
  tracks.foldlM (fun m track => do
    let k ← pyIndex track "kind"
    if jsonEqStr k "captions" then do
      let lab ← pyIndex track "label"
      let file ← pyIndex track "file"
      pyDictSet m lab file
    else return m) []

/-- The source-resolution tail of `HiAnimeScraper.scrape` (lines 141-187),
from the sources lookup for the chosen target episode to the assembled
descriptor.  `sources` maps the `episodeId` of the target to the decoded body
of the sources request. -/
def hianimeResolve (metadata : Metadata) (sel : Option EpisodeSelector)
    (target : JsonVal) (sources : JsonVal → JsonVal) : Except String Descriptor := do
  let epId ← pyIndex target "episodeId"
  let sourcesResponse := sources epId
  let missing ← hianimeMissing sourcesResponse "sources"
  if missing then
    if metadata.type = .multi then return hianimePlaceholderMulti metadata sel
    else return hianimePlaceholderSingle metadata
  else
    let d ← pyIndex sourcesResponse "data"
    let srcs ← pyIndex d "sources"
    let first ← pyGetItemNat srcs 0
    let videoUrl ← pyIndex first "url"
    let hasTracks ← pyContains d "tracks"
    let subs ← if hasTracks then do
        let tracks ← pyIndex d "tracks"
        let tl ← pyToList tracks
        hianimeSubtitles tl
      else pure []
    if metadata.type = .multi then do
      let num ← pyIndex target "number"
      return { kind := .multi, url := videoUrl,
               title := .str (pyStr metadata.title ++ " - Episode " ++ pyStr num),
               referrer := some "https://hianime.to",
               episode := some sel, subtitles := some (.dict subs) }
    else
      return { kind := .single, url := videoUrl, title := metadata.title,
               referrer := some "https://hianime.to", year := some metadata.year }

/-- `HiAnimeScraper.scrape`: `epResponse` is the decoded episode-listing
body; `sources` maps an `episodeId` to the decoded sources-lookup body. -/
def hianimeScrape (metadata : Metadata) (sel : Option EpisodeSelector)
    (epResponse : JsonVal) (sources : JsonVal → JsonVal) : Except String Descriptor := do
  let missing ← hianimeMissing epResponse "episodes"
  if missing then return hianimePlaceholderSingle metadata
  else
    let d ← pyIndex epResponse "data"
    let episodes ← pyIndex d "episodes"
    let target? ← hianimeSelectTarget metadata.type sel episodes
    match metadata.type, target? with
    | .multi, none => return hianimePlaceholderMulti metadata sel
    | .multi, some ep =>
      if ¬ truthy ep then return hianimePlaceholderMulti metadata sel
      else hianimeResolve metadata sel ep sources
    | .single, none => return hianimePlaceholderSingle metadata
    | .single, some ep => hianimeResolve metadata sel ep sources

/-! ### HTML-scraping adapter (`myanimeplugin/animepahe/scraper.py`,
`AnimePaheScraper`)

`AnimePaheScraper._request` does not catch transport errors; operations
below take the decoded responses of the fetches that succeeded as
arguments (a propagating transport error never reaches the adapter logic
modelled here). -/

/-- Digits of a regex capture read back as a number (`int(...)`). -/
def digitsToNat (ds : List Char) : Nat :=
  ds.foldl (fun acc c => acc * 10 + (c.toNat - Char.toNat '0')) 0

/-- `re.search(r"Episode (\d+)", s)` followed by `int(match.group(1))`:
scan left to right for the literal `"Episode "` followed by at least one
digit; the capture is the maximal digit run. -/
def searchEpisodeNum : List Char → Option Nat
  | [] => none
  | c :: rest =>
    if ("Episode ".data).isPrefixOf (c :: rest) then
      let ds := ((c :: rest).drop 8).takeWhile Char.isDigit
      if ds.isEmpty then searchEpisodeNum rest
      else some (digitsToNat ds)
    else searchEpisodeNum rest

/-- `int(re.search(r"Episode (\d+)", ep.get("episode", "Episode 1")).group(1))`:
read the episode number of a listing element.  A missing key falls back to
`"Episode 1"`; a non-string value or a string without a match raises. -/
def paheParseEpisodeField (ep : JsonVal) : Except String Nat := do
  let t ← pyGet ep "episode" (.str "Episode 1")
  match t with
  | .str s =>
    match searchEpisodeNum s.data with
    | some n => .ok n
    | none => .error "AttributeError: NoneType object has no attribute group"
  | _ => .error "TypeError: expected string or bytes-like object"

/-- One search hit turned into a `Metadata`: `id=anime["session"]`,
`title=anime["title"]`, `MULTI if anime["episodes"] > 1 else SINGLE`. -/
def paheToMetadata (anime : JsonVal) : Except String Metadata := do
  let id ← pyIndex anime "session"
  let title ← pyIndex anime "title"
  let eps ← pyIndex anime "episodes"
  let n ← pyToInt eps
  return { id := id, title := title,
           type := if 1 < n then .multi else .single }

/-- `AnimePaheScraper.search`: no empty-query guard exists, so the
upstream request is always issued (first component `true`). -/
def paheSearch (_query : String) (limit : Option Int) (response : JsonVal) :
    Bool × Except String (List Metadata) :=
  (true, do
    let data ← pyGet response "data" (.arr [])
    let animes ← pyToList data
    (pySlice limit animes).mapM paheToMetadata)

/-- One iteration of the `AnimePaheScraper.scrape_episodes` loop:
`episode_map[1] = episode_number`. -/
def paheEpisodesStep (m : List (JsonVal × Int)) (ep : JsonVal) :
    Except String (List (JsonVal × Int)) := do
  let n ← paheParseEpisodeField ep
  pyDictSet m (.int 1) (Int.ofNat n)

/-- `AnimePaheScraper.scrape_episodes`: every listing element writes its
parsed number to the constant key `1` (`episode_map[1] = episode_number`),
with the sentinel `{None: 1}` when the map stays empty. -/
def paheScrapeEpisodes (metadata : Metadata) (response : JsonVal) :
    Except String (List (JsonVal × Int)) := do
  let data ← pyGet response "data" (.arr [])
  let eps ← pyToList data
  let epMap ← eps.foldlM paheEpisodesStep ([] : List (JsonVal × Int))
  if epMap.isEmpty then return [(.null, 1)]
  else return epMap

/-- The first listing element whose parsed episode number equals `n`
(first match wins); parse failures while scanning propagate. -/
def paheFindEpisode (eps : List JsonVal) (n : Int) : Except String (Option JsonVal) :=
  match eps with
  | [] => .ok none
  | ep :: rest => do
    let num ← paheParseEpisodeField ep
    if (Int.ofNat num) = n then return (some ep)
    else paheFindEpisode rest n

/-- The target-selection step of `AnimePaheScraper.scrape` (lines
100-113): `Multi` scans parsed numbers for the requested one, `Single`
takes the first listing element when one exists. -/
def paheSelectTarget (t : MetadataType) (sel : Option EpisodeSelector)
    (episodesData : List JsonVal) : Except String (Option JsonVal) :=
  match t with
  | .multi => paheFindEpisode episodesData (defaultEpisodeNum sel)
  | .single => .ok episodesData.head?

/-- `raise ValueError(f"Episode {episode.episode} not found")`: building
the message reads `episode.episode`, which itself raises when the
selector object is `None`. -/
def paheRaiseNotFound (sel : Option EpisodeSelector) : Except String α :=
  match sel with
  | none => .error "AttributeError: NoneType object has no attribute episode"
  | some s => .error ("ValueError: Episode " ++ toString s.episode ++ " not found")

/-- Modelled from the spec: the `Node` of the HTML-tree collaborator with
`get(attribute) -> string | absent` (attribute lookup on a parsed tag). -/
structure HtmlNode where
  attrs : List (String × String)
  deriving Repr

/-- `node.get(k)`: the string of the attribute, or Python `None` when absent. -/
def HtmlNode.attr (node : HtmlNode) (k : String) : JsonVal :=
  match node.attrs.lookup k with
  | some v => .str v
  | none => .null

/-- Modelled from the spec: the parsed playback page as the adapter
queries it.  `pickDownload` is `find("div", id="pickDownload")` followed
by `findAll("a")`, `resolutionMenu` is `find("div", id="resolutionMenu")`
followed by `findAll("button")`; `none` means the container `div` is
absent (`find` returned `None`). -/
structure HtmlPage where
  pickDownload : Option (List HtmlNode)
  resolutionMenu : Option (List HtmlNode)
  deriving Repr

/-- The playback-page resolution tail of `AnimePaheScraper.scrape` (lines
118-161), from the play-page fetch for the chosen target episode to the
assembled descriptor.  `page` maps the `session` of the target episode to
the parsed playback page.  `_extract_stream_url` is, in the source, an
explicit identity placeholder, so the video URL is the `href` of the
first download option. -/
def paheResolve (metadata : Metadata) (sel : Option EpisodeSelector)
    (target : JsonVal) (page : JsonVal → HtmlPage) : Except String Descriptor := do
  let session ← pyIndex target "session"
  let pg := page session
  let downloadOptions ← match pg.pickDownload with
    | some l => pure l
    | none => Except.error "AttributeError: NoneType object has no attribute findAll"
  let embedSources ← match pg.resolutionMenu with
    | some l => pure l
    | none => Except.error "AttributeError: NoneType object has no attribute findAll"
  match downloadOptions with
  | [] => Except.error "ValueError: No download options found"
  | dl0 :: _ => do
    let downloadUrl := dl0.attr "href"
    let _embedUrl ← match embedSources.head? with
      | some b => pure (b.attr "data-src")
      | none => Except.error "IndexError: list index out of range"
    let videoUrl := downloadUrl
    let dfltTitle ← match sel with
      | none =>
        Except.error "AttributeError: NoneType object has no attribute episode"
      | some s => pure (JsonVal.str ("Episode " ++ toString s.episode))
    let episodeTitle ← pyGet target "episode" dfltTitle
    if metadata.type = .multi then
      return { kind := .multi, url := videoUrl,
               title := .str (pyStr metadata.title ++ " - " ++ pyStr episodeTitle),
               episode := some sel, subtitles := some (.list []) }
    else
      return { kind := .single, url := videoUrl, title := metadata.title,
               subtitles := some (.list []) }

/-- `AnimePaheScraper.scrape`: `response` is the decoded episode-listing
body; `page` maps the `session` of a target episode to the parsed playback
page. -/
def paheScrape (metadata : Metadata) (sel : Option EpisodeSelector)
    (response : JsonVal) (page : JsonVal → HtmlPage) : Except String Descriptor := do
  let data ← pyGet response "data" (.arr [])
  let episodesData ← pyToList data
  let target? ← paheSelectTarget metadata.type sel episodesData
  match target? with
  | none => paheRaiseNotFound sel
  | some target =>
    if ¬ truthy target then paheRaiseNotFound sel
    else paheResolve metadata sel target page

/-! ### Helper lemmas -/

/-- Success of a monadic bind in `Except` splits into success of both
stages. -/
theorem exceptBind_eq_ok {x : Except String α} {f : α → Except String β} {c : β} :
    (x >>= f) = .ok c ↔ ∃ b, x = .ok b ∧ f b = .ok c := by
  cases x <;> simp [Except.bind, Bind.bind]

/-! ### Claim C1 -/

/-- Claim C1, counterexample: on a `Multi` entry whose episode-listing
fetch is unavailable (the `_request` failure substitute), `scrape` returns
the placeholder `Single`, not a placeholder of the matching (`Multi`)
kind. -/
theorem hianime_unavailable_placeholder_kind_counterexample :
    hianimeScrape { id := .str "anime-1", title := .str "Naruto", type := .multi }
        (some { episode := 2 }) hianimeRequestFailure (fun _ => JsonVal.null)
      = .ok (hianimePlaceholderSingle
          { id := .str "anime-1", title := .str "Naruto", type := .multi })
    ∧ (hianimePlaceholderSingle
          { id := .str "anime-1", title := .str "Naruto", type := .multi }).kind
        ≠ DKind.multi :=
  ⟨rfl, by decide⟩

/-- Claim C1 (amended): when the episode-listing fetch of the JSON-API
adapter is unavailable (the availability guard fires), `scrape` returns
the placeholder `Single` descriptor regardless of the kind of the entry,
with `url=""` and the original `entry.title` carried through unchanged;
the selector is not carried because the `Single` constructor takes no
episode argument. -/
theorem hianime_unavailable_listing_placeholder (metadata : Metadata)
    (sel : Option EpisodeSelector) (epResponse : JsonVal) (sources : JsonVal → JsonVal)
    (h : hianimeMissing epResponse "episodes" = .ok true) :
    hianimeScrape metadata sel epResponse sources = .ok (hianimePlaceholderSingle metadata)
    ∧ (hianimePlaceholderSingle metadata).kind = DKind.single
    ∧ (hianimePlaceholderSingle metadata).url = .str ""
    ∧ (hianimePlaceholderSingle metadata).title = metadata.title
    ∧ (hianimePlaceholderSingle metadata).episode = none := by
  refine ⟨?_, rfl, rfl, rfl, rfl⟩
  simp [hianimeScrape, h, Except.bind, Bind.bind, Pure.pure, Except.pure]

/-- Witness for `hianime_unavailable_listing_placeholder` at a concrete
`Multi` entry and the `_request` failure substitute. -/
theorem hianime_unavailable_listing_placeholder_witness :
    hianimeScrape { id := .str "anime-1", title := .str "Naruto", type := .multi }
        (some { episode := 2 }) hianimeRequestFailure (fun _ => JsonVal.null)
      = .ok (hianimePlaceholderSingle
          { id := .str "anime-1", title := .str "Naruto", type := .multi }) :=
  (hianime_unavailable_listing_placeholder _ _ hianimeRequestFailure _ rfl).1

/-! ### Claim C2 -/

/-- Claim C2, counterexample: a step-3 sources response that passes the
guard but carries an empty `sources` array makes the JSON-API `scrape`
raise an IndexError instead of degrading to a placeholder. -/
theorem hianime_step3_empty_sources_counterexample :
    hianimeScrape { id := .str "anime-1", title := .str "T", type := .multi }
        (some { episode := 1 })
        (.obj [("data", .obj [("episodes",
           .arr [.obj [("number", .int 1), ("episodeId", .str "e1")]])])])
        (fun _ => .obj [("data", .obj [("sources", .arr [])])])
      = .error "IndexError: list index out of range" := rfl

/-- Claim C2 (amended): a step-3 failure that the guard detects (falsy
sources response, or missing `data`/`sources` keys) degrades to a
placeholder descriptor of the matching kind; but an empty `sources` array
or malformed `sources`/`tracks` entries raise an uncaught exception. -/
theorem hianime_step3_guard_placeholder (metadata : Metadata)
    (sel : Option EpisodeSelector) (target : JsonVal) (sources : JsonVal → JsonVal)
    (epId : JsonVal)
    (hid : pyIndex target "episodeId" = .ok epId)
    (h : hianimeMissing (sources epId) "sources" = .ok true) :
    hianimeResolve metadata sel target sources
      = .ok (if metadata.type = .multi then hianimePlaceholderMulti metadata sel
             else hianimePlaceholderSingle metadata) := by
  simp [hianimeResolve, hid, h, Except.bind, Bind.bind, Pure.pure, Except.pure]
  split <;> simp

/-- Witness for `hianime_step3_guard_placeholder`: a concrete target whose
sources lookup yields the `_request` failure substitute. -/
theorem hianime_step3_guard_placeholder_witness :
    hianimeResolve { id := .str "anime-1", title := .str "T", type := .multi }
        (some { episode := 1 })
        (.obj [("number", .int 1), ("episodeId", .str "e1")])
        (fun _ => hianimeRequestFailure)
      = .ok (if ({ id := .str "anime-1", title := .str "T",
                   type := .multi } : Metadata).type = .multi
             then hianimePlaceholderMulti
                    { id := .str "anime-1", title := .str "T", type := .multi }
                    (some { episode := 1 })
             else hianimePlaceholderSingle
                    { id := .str "anime-1", title := .str "T", type := .multi }) :=
  hianime_step3_guard_placeholder _ _ _ _ (.str "e1") rfl rfl

/-! ### Claim C4 -/

/-- Claim C4, counterexample: the HTML-scraping adapter has no empty-query
guard: `search("")` still issues the upstream request (first component
`true`) and yields whatever the response holds, here one entry. -/
theorem pahe_search_empty_query_counterexample :
    paheSearch "" none
        (.obj [("data", .arr [.obj [("session", .str "s1"), ("title", .str "T"),
           ("episodes", .int 12)]])])
      = (true, .ok [{ id := .str "s1", title := .str "T", type := .multi }]) := rfl

/-- Claim C4 (amended): the JSON-API adapter returns an empty sequence on
the empty query without issuing the upstream request; the HTML-scraping
adapter always issues the request, for the empty query too, and returns
whatever the upstream response yields. -/
theorem search_empty_query :
    (∀ (limit : Option Int) (response : JsonVal),
       hianimeSearch "" limit response = (false, .ok []))
    ∧ (∀ (query : String) (limit : Option Int) (response : JsonVal),
       (paheSearch query limit response).1 = true) :=
  ⟨fun _ _ => rfl, fun _ _ _ => rfl⟩

/-- Binding a success in `Except` applies the continuation. -/
theorem exceptOk_bind {a : α} {f : α → Except String β} :
    (Except.ok a >>= f : Except String β) = f a := rfl

/-! ### Claim C5 -/

/-- Claim C5, counterexample: a decoded search body whose hit list
contains an entry without the `id`/`name`/`episodes` fields makes the
JSON-API `search` raise a raw KeyError instead of degrading. -/
theorem schema_mismatch_raw_exception_counterexample :
    hianimeSearch "naruto" none (.obj [("data", .obj [("animes", .arr [.obj []])])])
      = (true, .error "KeyError: id") := rfl

/-- Claim C5 (amended): schema mismatches that the top-level guards check
(missing `data`/`animes`/`episodes` keys, a falsy body, a missing `data`
list) are converted into empty, sentinel or placeholder results; but
mismatches inside individual elements (a search hit without
`id`/`name`/`episodes`, an unparsable episode title, a missing HTML
container) escape as raw exceptions.  This theorem proves the guarded
part; the counterexample shows the escape. -/
theorem guarded_schema_mismatch_degrades :
    (∀ (query : String) (limit : Option Int) (response : JsonVal),
       query ≠ "" → hianimeMissing response "animes" = .ok true →
       hianimeSearch query limit response = (true, .ok []))
    ∧ (∀ (metadata : Metadata) (response : JsonVal),
       hianimeMissing response "episodes" = .ok true →
       hianimeScrapeEpisodes metadata response = .ok [(.null, 1)])
    ∧ (∀ (metadata : Metadata) (fs : List (String × JsonVal)),
       fs.lookup "data" = none →
       paheScrapeEpisodes metadata (.obj fs) = .ok [(.null, 1)])
    ∧ (∀ (metadata : Metadata) (sel : Option EpisodeSelector) (target : JsonVal)
         (page : JsonVal → HtmlPage) (session : JsonVal),
       pyIndex target "session" = .ok session →
       (page session).pickDownload = none →
       paheResolve metadata sel target page
         = .error "AttributeError: NoneType object has no attribute findAll") := by
  refine ⟨?_, ?_, ?_, ?_⟩
  · intro query limit response hq h
    simp [hianimeSearch, hq, h, Except.bind, Bind.bind, Pure.pure, Except.pure]
  · intro metadata response h
    simp [hianimeScrapeEpisodes, h, Except.bind, Bind.bind, Pure.pure, Except.pure]
  · intro metadata fs h
    simp [paheScrapeEpisodes, pyGet, h, pyToList, Except.bind, Bind.bind,
      Pure.pure, Except.pure]
  · intro metadata sel target page session hs hpd
    simp [paheResolve, hs, hpd, Except.bind, Bind.bind, Pure.pure, Except.pure]

/-- Witness for `guarded_schema_mismatch_degrades`, each conjunct applied
at a concrete input. -/
theorem guarded_schema_mismatch_degrades_witness :
    hianimeSearch "naruto" none hianimeRequestFailure = (true, .ok [])
    ∧ hianimeScrapeEpisodes { id := .str "a", title := .str "T", type := .multi }
        hianimeRequestFailure = .ok [(.null, 1)]
    ∧ paheScrapeEpisodes { id := .str "a", title := .str "T", type := .multi }
        (.obj []) = .ok [(.null, 1)]
    ∧ paheResolve { id := .str "a", title := .str "T", type := .multi } none
        (.obj [("session", .str "s")])
        (fun _ => { pickDownload := none, resolutionMenu := none })
        = .error "AttributeError: NoneType object has no attribute findAll" :=
  ⟨guarded_schema_mismatch_degrades.1 "naruto" none _ (by decide) rfl,
   guarded_schema_mismatch_degrades.2.1 _ _ rfl,
   guarded_schema_mismatch_degrades.2.2.1 _ [] rfl,
   guarded_schema_mismatch_degrades.2.2.2 _ none _ _ (.str "s") rfl rfl⟩

/-! ### Claim C6 -/

/-- Claim C6: `scrape_episodes` of either adapter never returns an empty
mapping: whenever it returns at all, the mapping is nonempty, a guarded
unavailable listing yields exactly the sentinel `{None: 1}`, and an empty
listing yields exactly the sentinel as well. -/
theorem scrape_episodes_never_empty :
    (∀ (metadata : Metadata) (response : JsonVal) (m : List (JsonVal × Int)),
       hianimeScrapeEpisodes metadata response = .ok m → m ≠ [])
    ∧ (∀ (metadata : Metadata) (response : JsonVal),
       hianimeMissing response "episodes" = .ok true →
       hianimeScrapeEpisodes metadata response = .ok [(.null, 1)])
    ∧ (∀ metadata, hianimeScrapeEpisodes metadata
         (.obj [("data", .obj [("episodes", .arr [])])]) = .ok [(.null, 1)])
    ∧ (∀ (metadata : Metadata) (response : JsonVal) (m : List (JsonVal × Int)),
       paheScrapeEpisodes metadata response = .ok m → m ≠ [])
    ∧ (∀ metadata, paheScrapeEpisodes metadata (.obj [("data", .arr [])])
         = .ok [(.null, 1)]) := by
  refine ⟨?_, ?_, fun _ => rfl, ?_, fun _ => rfl⟩
  · intro metadata response m h
    simp only [hianimeScrapeEpisodes] at h
    rw [exceptBind_eq_ok] at h
    obtain ⟨missing, hmiss, h⟩ := h
    cases missing
    · simp only [Bool.false_eq_true, if_false] at h
      rw [exceptBind_eq_ok] at h
      obtain ⟨d, hd, h⟩ := h
      rw [exceptBind_eq_ok] at h
      obtain ⟨eps, heps, h⟩ := h
      rw [exceptBind_eq_ok] at h
      obtain ⟨epsL, hepsL, h⟩ := h
      rw [exceptBind_eq_ok] at h
      obtain ⟨epMap, hfold, h⟩ := h
      cases hEmp : epMap.isEmpty <;> simp [hEmp, Pure.pure, Except.pure] at h
      · cases epMap with
        | nil => simp at hEmp
        | cons a l => simp [← h]
      · simp [← h]
    · simp [Pure.pure, Except.pure] at h
      simp [← h]
  · intro metadata response h
    simp [hianimeScrapeEpisodes, h, Except.bind, Bind.bind, Pure.pure, Except.pure]
  · intro metadata response m h
    simp only [paheScrapeEpisodes] at h
    rw [exceptBind_eq_ok] at h
    obtain ⟨d, hd, h⟩ := h
    rw [exceptBind_eq_ok] at h
    obtain ⟨eps, heps, h⟩ := h
    rw [exceptBind_eq_ok] at h
    obtain ⟨epMap, hfold, h⟩ := h
    cases hEmp : epMap.isEmpty <;> simp [hEmp, Pure.pure, Except.pure] at h
    · cases epMap with
      | nil => simp at hEmp
      | cons a l => simp [← h]
    · simp [← h]

/-- Witness for `scrape_episodes_never_empty`: the sentinel result of a
failed fetch is itself nonempty. -/
theorem scrape_episodes_never_empty_witness :
    ([((JsonVal.null : JsonVal), (1 : Int))] : List (JsonVal × Int)) ≠ [] :=
  scrape_episodes_never_empty.1
    { id := .str "a", title := .str "T", type := .multi } hianimeRequestFailure
    [(.null, 1)] rfl

/-! ### Claim C7 -/

/-- A well-formed upstream search hit: an opaque id value, a title value
and an episode count. -/
structure SearchHit where
  hid : JsonVal
  hname : JsonVal
  count : Int
  deriving Repr

/-- The decoded shape of one JSON-API search hit:
`{"id": ..., "name": ..., "episodes": {"sub": n}}`. -/
def mkHiAnime (h : SearchHit) : JsonVal :=
  .obj [("id", h.hid), ("name", h.hname), ("episodes", .obj [("sub", .int h.count)])]

/-- The decoded shape of one HTML-adapter search hit:
`{"session": ..., "title": ..., "episodes": n}`. -/
def mkPaheHit (h : SearchHit) : JsonVal :=
  .obj [("session", h.hid), ("title", h.hname), ("episodes", .int h.count)]

/-- The `Metadata` either adapter builds from a well-formed hit. -/
def hitMeta (h : SearchHit) : Metadata :=
  { id := h.hid, title := h.hname, type := if 1 < h.count then .multi else .single }

/-- `mapM` over a list of images of `g` succeeds elementwise. -/
theorem mapM_map_ok {α β γ : Type} {f : α → Except String γ} {g : β → α} {k : β → γ}
    (hfg : ∀ x, f (g x) = .ok (k x)) (xs : List β) :
    (xs.map g).mapM f = .ok (xs.map k) := by
  induction xs with
  | nil => rfl
  | cons x xs ih =>
    rw [List.map_cons, List.mapM_cons, hfg, ih, List.map_cons]
    rfl

/-- A well-formed JSON-API hit decodes to its `hitMeta`. -/
theorem hianimeToMetadata_mk (h : SearchHit) :
    hianimeToMetadata (mkHiAnime h) = .ok (hitMeta h) := by
  simp [hianimeToMetadata, mkHiAnime, hitMeta, pyIndex, pyToInt, Except.bind,
    Bind.bind, Pure.pure, Except.pure, List.lookup]

/-- A well-formed HTML-adapter hit decodes to its `hitMeta`. -/
theorem paheToMetadata_mk (h : SearchHit) :
    paheToMetadata (mkPaheHit h) = .ok (hitMeta h) := by
  simp [paheToMetadata, mkPaheHit, hitMeta, pyIndex, pyToInt, Except.bind,
    Bind.bind, Pure.pure, Except.pure, List.lookup]

/-- Slicing commutes with mapping. -/
theorem pySlice_map (limit : Option Int) (xs : List β) (g : β → α) :
    pySlice limit (xs.map g) = (pySlice limit xs).map g := by
  cases limit with
  | none => rfl
  | some n => simp only [pySlice]; split <;> simp [List.map_take]

/-- JSON-API search on a well-formed response: slice, then decode each
hit in order. -/
theorem hianimeSearch_wf (query : String) (limit : Option Int)
    (hits : List SearchHit) (hq : query ≠ "") :
    hianimeSearch query limit
        (.obj [("data", .obj [("animes", .arr (hits.map mkHiAnime))])])
      = (true, .ok ((pySlice limit hits).map hitMeta)) := by
  simp only [hianimeSearch, if_neg hq]
  have hmiss : hianimeMissing
      (.obj [("data", .obj [("animes", .arr (hits.map mkHiAnime))])]) "animes"
      = .ok false := rfl
  simp only [hmiss, Except.bind, Bind.bind]
  simp [pyIndex, pyToList, List.lookup, pySlice_map,
    Except.bind, Bind.bind, Pure.pure, Except.pure]
  exact mapM_map_ok hianimeToMetadata_mk (pySlice limit hits)

/-- HTML-adapter search on a well-formed response: slice, then decode
each hit in order. -/
theorem paheSearch_wf (query : String) (limit : Option Int) (hits : List SearchHit) :
    paheSearch query limit (.obj [("data", .arr (hits.map mkPaheHit))])
      = (true, .ok ((pySlice limit hits).map hitMeta)) := by
  simp [paheSearch, pyGet, pyToList, List.lookup, pySlice_map,
    Except.bind, Bind.bind, Pure.pure, Except.pure]
  exact mapM_map_ok paheToMetadata_mk (pySlice limit hits)

/-- Claim C7: on a valid upstream response, each entry yielded by
`search` of either adapter has kind `Multi` iff the upstream
episode-count field exceeds 1, and the yielded entries are the upstream
hits in order, truncated to the first `limit` entries when a nonnegative
`limit` is given. -/
theorem search_kind_and_truncation :
    (∀ (h : SearchHit) (md : Metadata),
       hianimeToMetadata (mkHiAnime h) = .ok md → (md.type = .multi ↔ 1 < h.count))
    ∧ (∀ (h : SearchHit) (md : Metadata),
       paheToMetadata (mkPaheHit h) = .ok md → (md.type = .multi ↔ 1 < h.count))
    ∧ (∀ (query : String) (limit : Option Int) (hits : List SearchHit),
       query ≠ "" →
       hianimeSearch query limit
           (.obj [("data", .obj [("animes", .arr (hits.map mkHiAnime))])])
         = (true, .ok ((pySlice limit hits).map hitMeta)))
    ∧ (∀ (query : String) (limit : Option Int) (hits : List SearchHit),
       paheSearch query limit (.obj [("data", .arr (hits.map mkPaheHit))])
         = (true, .ok ((pySlice limit hits).map hitMeta)))
    ∧ (∀ (k : Int) (xs : List SearchHit), 0 ≤ k →
       pySlice (some k) xs = xs.take k.toNat)
    ∧ (∀ (xs : List SearchHit), pySlice none xs = xs) := by
  refine ⟨?_, ?_, fun q l hits hq => hianimeSearch_wf q l hits hq,
          fun q l hits => paheSearch_wf q l hits, ?_, fun _ => rfl⟩
  · intro h md hmd
    rw [hianimeToMetadata_mk] at hmd
    cases hmd
    by_cases hc : 1 < h.count <;> simp [hitMeta, hc]
  · intro h md hmd
    rw [paheToMetadata_mk] at hmd
    cases hmd
    by_cases hc : 1 < h.count <;> simp [hitMeta, hc]
  · intro k xs hk
    simp [pySlice, hk]

/-- Witness for `search_kind_and_truncation` at two concrete hits, one
with 2 episodes and one with 1, and the limit 1. -/
theorem search_kind_and_truncation_witness :
    ((hitMeta ⟨.str "a1", .str "A", 2⟩).type = .multi ↔ (1 : Int) < 2)
    ∧ hianimeSearch "naruto" (some 1)
        (.obj [("data", .obj [("animes",
           .arr ([⟨.str "a1", .str "A", 2⟩, ⟨.str "a2", .str "B", 1⟩].map mkHiAnime))])])
      = (true, .ok ((pySlice (some 1)
          [⟨.str "a1", .str "A", 2⟩, ⟨.str "a2", .str "B", 1⟩]).map hitMeta))
    ∧ paheSearch "naruto" (some 1)
        (.obj [("data",
           .arr ([⟨.str "a1", .str "A", 2⟩, ⟨.str "a2", .str "B", 1⟩].map mkPaheHit))])
      = (true, .ok ((pySlice (some 1)
          [⟨.str "a1", .str "A", 2⟩, ⟨.str "a2", .str "B", 1⟩]).map hitMeta)) :=
  ⟨search_kind_and_truncation.1 ⟨.str "a1", .str "A", 2⟩ (hitMeta ⟨.str "a1", .str "A", 2⟩) rfl,
   search_kind_and_truncation.2.2.1 "naruto" (some 1) _ (by decide),
   search_kind_and_truncation.2.2.2.1 "naruto" (some 1) _⟩

/-! ### Claims C3 and C8: target-selection lemmas -/

/-- `hianimeFindEpisode` returns the first listing element whose
`"number"` field compares equal to `n`, and every element before it has a
readable `"number"` field that compares unequal. -/
theorem hianimeFindEpisode_first (eps : List JsonVal) (n : Int) (ep : JsonVal)
    (h : hianimeFindEpisode eps n = .ok (some ep)) :
    ∃ pre post num, eps = pre ++ ep :: post
      ∧ pyIndex ep "number" = .ok num ∧ jsonEqInt num n = true
      ∧ ∀ e ∈ pre, ∃ nume, pyIndex e "number" = .ok nume ∧ jsonEqInt nume n = false := by
  induction eps with
  | nil => simp [hianimeFindEpisode] at h
  | cons e rest ih =>
    simp only [hianimeFindEpisode] at h
    rw [exceptBind_eq_ok] at h
    obtain ⟨num, hnum, h⟩ := h
    by_cases hb : jsonEqInt num n = true
    · simp only [hb, if_true, Pure.pure, Except.pure] at h
      cases h
      exact ⟨[], rest, num, by simp, hnum, hb, by simp⟩
    · simp only [hb, if_false, Bool.false_eq_true] at h
      obtain ⟨pre, post, num2, heq, h1, h2, h3⟩ := ih h
      refine ⟨e :: pre, post, num2, by simp [heq], h1, h2, ?_⟩
      intro x hx
      rcases List.mem_cons.mp hx with hx | hx
      · subst hx
        exact ⟨num, hnum, by simpa using hb⟩
      · exact h3 x hx

/-- `paheFindEpisode` returns the first listing element whose parsed
episode number equals `n`, and every element before it parses to a
different number. -/
theorem paheFindEpisode_first (eps : List JsonVal) (n : Int) (ep : JsonVal)
    (h : paheFindEpisode eps n = .ok (some ep)) :
    ∃ pre post k, eps = pre ++ ep :: post
      ∧ paheParseEpisodeField ep = .ok k ∧ Int.ofNat k = n
      ∧ ∀ e ∈ pre, ∃ ke, paheParseEpisodeField e = .ok ke ∧ Int.ofNat ke ≠ n := by
  induction eps with
  | nil => simp [paheFindEpisode] at h
  | cons e rest ih =>
    simp only [paheFindEpisode] at h
    rw [exceptBind_eq_ok] at h
    obtain ⟨k, hk, h⟩ := h
    by_cases hb : (Int.ofNat k) = n
    · simp only [hb, if_pos, Pure.pure, Except.pure] at h
      cases h
      exact ⟨[], rest, k, by simp, hk, hb, by simp⟩
    · simp only [hb, if_neg, if_false] at h
      obtain ⟨pre, post, k2, heq, h1, h2, h3⟩ := ih h
      refine ⟨e :: pre, post, k2, by simp [heq], h1, h2, ?_⟩
      intro x hx
      rcases List.mem_cons.mp hx with hx | hx
      · subst hx
        exact ⟨k, hk, hb⟩
      · exact h3 x hx

/-- `HiAnimeScraper.scrape` on a `Multi` entry with a well-shaped listing
response reduces to the episode scan followed by the placeholder /
resolution dispatch. -/
theorem hianimeScrape_multi_dispatch (metadata : Metadata)
    (sel : Option EpisodeSelector) (eps : List JsonVal) (sources : JsonVal → JsonVal)
    (hty : metadata.type = .multi) :
    hianimeScrape metadata sel (.obj [("data", .obj [("episodes", .arr eps)])]) sources
      = (hianimeFindEpisode eps (defaultEpisodeNum sel) >>= fun t? =>
          match t? with
          | none => .ok (hianimePlaceholderMulti metadata sel)
          | some ep =>
            if ¬ truthy ep then .ok (hianimePlaceholderMulti metadata sel)
            else hianimeResolve metadata sel ep sources) := by
  obtain ⟨mid, mtitle, mty, myear⟩ := metadata
  simp only at hty
  subst hty
  simp only [hianimeScrape]
  rw [show hianimeMissing (.obj [("data", .obj [("episodes", .arr eps)])]) "episodes"
        = .ok false from rfl, exceptOk_bind]
  simp only [Bool.false_eq_true, if_false]
  rw [show pyIndex (JsonVal.obj [("data", .obj [("episodes", .arr eps)])]) "data"
        = .ok (.obj [("episodes", .arr eps)]) from rfl, exceptOk_bind]
  rw [show pyIndex (JsonVal.obj [("episodes", .arr eps)]) "episodes"
        = .ok (.arr eps) from rfl, exceptOk_bind]
  rw [show hianimeSelectTarget MetadataType.multi sel (.arr eps)
        = hianimeFindEpisode eps (defaultEpisodeNum sel) from rfl]
  cases hfind : hianimeFindEpisode eps (defaultEpisodeNum sel) with
  | error e => rfl
  | ok t? => cases t? <;> rfl

/-- `AnimePaheScraper.scrape` on a `Multi` entry with a well-shaped
listing response reduces to the episode scan followed by the raise /
resolution dispatch. -/
theorem paheScrape_multi_dispatch (metadata : Metadata)
    (sel : Option EpisodeSelector) (eps : List JsonVal) (page : JsonVal → HtmlPage)
    (hty : metadata.type = .multi) :
    paheScrape metadata sel (.obj [("data", .arr eps)]) page
      = (paheFindEpisode eps (defaultEpisodeNum sel) >>= fun t? =>
          match t? with
          | none => paheRaiseNotFound sel
          | some ep =>
            if ¬ truthy ep then paheRaiseNotFound sel
            else paheResolve metadata sel ep page) := by
  obtain ⟨mid, mtitle, mty, myear⟩ := metadata
  simp only at hty
  subst hty
  rfl

/-- `HiAnimeScraper.scrape` on a `Single` entry with a nonempty listing
resolves the first listing element, whatever the selector holds. -/
theorem hianimeScrape_single_dispatch (metadata : Metadata)
    (sel : Option EpisodeSelector) (e : JsonVal) (rest : List JsonVal)
    (sources : JsonVal → JsonVal) (hty : metadata.type = .single) :
    hianimeScrape metadata sel
        (.obj [("data", .obj [("episodes", .arr (e :: rest))])]) sources
      = hianimeResolve metadata sel e sources := by
  obtain ⟨mid, mtitle, mty, myear⟩ := metadata
  simp only at hty
  subst hty
  rfl

/-- `AnimePaheScraper.scrape` on a `Single` entry with a nonempty listing
whose first element is truthy resolves that first element, whatever the
selector holds. -/
theorem paheScrape_single_dispatch (metadata : Metadata)
    (sel : Option EpisodeSelector) (e : JsonVal) (rest : List JsonVal)
    (page : JsonVal → HtmlPage) (hty : metadata.type = .single)
    (htr : truthy e = true) :
    paheScrape metadata sel (.obj [("data", .arr (e :: rest))]) page
      = paheResolve metadata sel e page := by
  obtain ⟨mid, mtitle, mty, myear⟩ := metadata
  simp only at hty
  subst hty
  simp [paheScrape, paheSelectTarget, pyGet, pyToList, List.lookup, htr,
    Except.bind, Bind.bind, Pure.pure, Except.pure]

/-! ### Claim C3 -/

/-- Claim C3, counterexample: when the selector object is absent and the
requested (defaulted) episode is missing from the listing, the
HTML-scraping adapter does not raise its "not found" error: formatting
the message reads `episode.episode` on `None` and raises an
AttributeError whose text never mentions "not found". -/
theorem pahe_notfound_without_selector_counterexample :
    paheScrape { id := .str "a", title := .str "T", type := .multi } none
        (.obj [("data", .arr [.obj [("episode", .str "Episode 2"), ("session", .str "s")]])])
        (fun _ => { pickDownload := some [], resolutionMenu := some [] })
      = .error "AttributeError: NoneType object has no attribute episode"
    ∧ hasSubRun "not found".data
        "AttributeError: NoneType object has no attribute episode".data = false :=
  ⟨rfl, rfl⟩

/-- Claim C3 (amended): on a `Multi` entry with requested episode `N`
(defaulting to 1 when the selector is absent or zero), both adapters scan
for the first listing element whose parsed episode number equals `N` and
resolve exactly that element; if no such element exists the JSON-API
adapter returns the placeholder `Multi` and the HTML-scraping adapter
raises — the "not found" `ValueError` when a selector object is supplied,
and an AttributeError raised while formatting that message when the
selector is absent.  Neither adapter ever resolves a different episode. -/
theorem scrape_multi_episode_targeting :
    (∀ (metadata : Metadata) (sel : Option EpisodeSelector) (eps : List JsonVal)
       (sources : JsonVal → JsonVal), metadata.type = .multi →
       hianimeFindEpisode eps (defaultEpisodeNum sel) = .ok none →
       hianimeScrape metadata sel (.obj [("data", .obj [("episodes", .arr eps)])]) sources
         = .ok (hianimePlaceholderMulti metadata sel))
    ∧ (∀ (metadata : Metadata) (s : EpisodeSelector) (eps : List JsonVal)
       (page : JsonVal → HtmlPage), metadata.type = .multi →
       paheFindEpisode eps (defaultEpisodeNum (some s)) = .ok none →
       paheScrape metadata (some s) (.obj [("data", .arr eps)]) page
         = .error ("ValueError: Episode " ++ toString s.episode ++ " not found"))
    ∧ (∀ (eps : List JsonVal) (n : Int) (ep : JsonVal),
       hianimeFindEpisode eps n = .ok (some ep) →
       ∃ pre post num, eps = pre ++ ep :: post
         ∧ pyIndex ep "number" = .ok num ∧ jsonEqInt num n = true
         ∧ ∀ e ∈ pre, ∃ nume, pyIndex e "number" = .ok nume ∧ jsonEqInt nume n = false)
    ∧ (∀ (eps : List JsonVal) (n : Int) (ep : JsonVal),
       paheFindEpisode eps n = .ok (some ep) →
       ∃ pre post k, eps = pre ++ ep :: post
         ∧ paheParseEpisodeField ep = .ok k ∧ Int.ofNat k = n
         ∧ ∀ e ∈ pre, ∃ ke, paheParseEpisodeField e = .ok ke ∧ Int.ofNat ke ≠ n)
    ∧ (∀ (metadata : Metadata) (sel : Option EpisodeSelector) (eps : List JsonVal)
       (sources : JsonVal → JsonVal) (ep : JsonVal), metadata.type = .multi →
       hianimeFindEpisode eps (defaultEpisodeNum sel) = .ok (some ep) →
       truthy ep = true →
       hianimeScrape metadata sel (.obj [("data", .obj [("episodes", .arr eps)])]) sources
         = hianimeResolve metadata sel ep sources)
    ∧ (∀ (metadata : Metadata) (sel : Option EpisodeSelector) (eps : List JsonVal)
       (page : JsonVal → HtmlPage) (ep : JsonVal), metadata.type = .multi →
       paheFindEpisode eps (defaultEpisodeNum sel) = .ok (some ep) →
       truthy ep = true →
       paheScrape metadata sel (.obj [("data", .arr eps)]) page
         = paheResolve metadata sel ep page) := by
  refine ⟨?_, ?_, hianimeFindEpisode_first, paheFindEpisode_first, ?_, ?_⟩
  · intro metadata sel eps sources hty hfind
    rw [hianimeScrape_multi_dispatch metadata sel eps sources hty, hfind]
    rfl
  · intro metadata s eps page hty hfind
    rw [paheScrape_multi_dispatch metadata (some s) eps page hty, hfind]
    rfl
  · intro metadata sel eps sources ep hty hfind htr
    rw [hianimeScrape_multi_dispatch metadata sel eps sources hty, hfind, exceptOk_bind]
    simp [htr]
  · intro metadata sel eps page ep hty hfind htr
    rw [paheScrape_multi_dispatch metadata sel eps page hty, hfind, exceptOk_bind]
    simp [htr]

/-- Witness for `scrape_multi_episode_targeting`: requested episode 9 in
a listing holding only episode 1 yields the placeholder `Multi` (JSON-API
adapter) and the "not found" `ValueError` (HTML adapter). -/
theorem scrape_multi_episode_targeting_witness :
    hianimeScrape { id := .str "a", title := .str "T", type := .multi }
        (some { episode := 9 })
        (.obj [("data", .obj [("episodes",
           .arr [.obj [("number", .int 1), ("episodeId", .str "e1")]])])])
        (fun _ => JsonVal.null)
      = .ok (hianimePlaceholderMulti
          { id := .str "a", title := .str "T", type := .multi } (some { episode := 9 }))
    ∧ paheScrape { id := .str "a", title := .str "T", type := .multi }
        (some { episode := 9 })
        (.obj [("data", .arr [.obj [("episode", .str "Episode 1"), ("session", .str "s1")]])])
        (fun _ => { pickDownload := some [], resolutionMenu := some [] })
      = .error ("ValueError: Episode " ++ toString (9 : Int) ++ " not found") :=
  ⟨scrape_multi_episode_targeting.1 _ _ _ _ rfl rfl,
   scrape_multi_episode_targeting.2.1 _ { episode := 9 } _ _ rfl rfl⟩

/-! ### Claim C8 -/

/-- Claim C8: on a `Single` entry with a nonempty listing, `scrape` of
either adapter targets the first listing element, for every value of the
selector; the whole call reduces to resolving that first element (for the
HTML adapter whenever that element is truthy, since a falsy first element
is rejected by its `if not target_episode` check). -/
theorem scrape_single_targets_first :
    (∀ (sel : Option EpisodeSelector) (e : JsonVal) (rest : List JsonVal),
       hianimeSelectTarget .single sel (.arr (e :: rest)) = .ok (some e))
    ∧ (∀ (sel : Option EpisodeSelector) (e : JsonVal) (rest : List JsonVal),
       paheSelectTarget .single sel (e :: rest) = .ok (some e))
    ∧ (∀ (metadata : Metadata) (sel : Option EpisodeSelector) (e : JsonVal)
         (rest : List JsonVal) (sources : JsonVal → JsonVal),
       metadata.type = .single →
       hianimeScrape metadata sel
           (.obj [("data", .obj [("episodes", .arr (e :: rest))])]) sources
         = hianimeResolve metadata sel e sources)
    ∧ (∀ (metadata : Metadata) (sel : Option EpisodeSelector) (e : JsonVal)
         (rest : List JsonVal) (page : JsonVal → HtmlPage),
       metadata.type = .single → truthy e = true →
       paheScrape metadata sel (.obj [("data", .arr (e :: rest))]) page
         = paheResolve metadata sel e page) :=
  ⟨fun _ _ _ => rfl, fun _ _ _ => rfl,
   fun metadata sel e rest sources hty =>
     hianimeScrape_single_dispatch metadata sel e rest sources hty,
   fun metadata sel e rest page hty htr =>
     paheScrape_single_dispatch metadata sel e rest page hty htr⟩

/-- Witness for `scrape_single_targets_first`: a two-element listing on a
`Single` entry, with a selector requesting episode 7, still resolves the
first element for both adapters. -/
theorem scrape_single_targets_first_witness :
    hianimeScrape { id := .str "a", title := .str "T", type := .single }
        (some { episode := 7 })
        (.obj [("data", .obj [("episodes",
           .arr [.obj [("number", .int 1), ("episodeId", .str "e1")],
                 .obj [("number", .int 2), ("episodeId", .str "e2")]])])])
        (fun _ => hianimeRequestFailure)
      = hianimeResolve { id := .str "a", title := .str "T", type := .single }
          (some { episode := 7 })
          (.obj [("number", .int 1), ("episodeId", .str "e1")])
          (fun _ => hianimeRequestFailure)
    ∧ paheScrape { id := .str "a", title := .str "T", type := .single }
        (some { episode := 7 })
        (.obj [("data", .arr [.obj [("episode", .str "Episode 1"), ("session", .str "s1")],
                               .obj [("episode", .str "Episode 2"), ("session", .str "s2")]])])
        (fun _ => { pickDownload := some [], resolutionMenu := some [] })
      = paheResolve { id := .str "a", title := .str "T", type := .single }
          (some { episode := 7 })
          (.obj [("episode", .str "Episode 1"), ("session", .str "s1")])
          (fun _ => { pickDownload := some [], resolutionMenu := some [] }) :=
  ⟨scrape_single_targets_first.2.2.1 _ _ _ _ _ rfl,
   scrape_single_targets_first.2.2.2 _ _ _ _ _ rfl rfl⟩

/-! ### Claim C9 -/

/-- Shape of every successful JSON-API resolution: referrer is the fixed
site origin, `Multi` carries the suffixed title, the subtitles dict and
the selector, `Single` carries the plain catalog title, the year, and no
subtitles argument. -/
theorem hianimeResolve_ok_shape (metadata : Metadata) (sel : Option EpisodeSelector)
    (target : JsonVal) (sources : JsonVal → JsonVal) (epId : JsonVal) (d : Descriptor)
    (hEp : pyIndex target "episodeId" = .ok epId)
    (hMiss : hianimeMissing (sources epId) "sources" = .ok false)
    (h : hianimeResolve metadata sel target sources = .ok d) :
    d.referrer = some "https://hianime.to"
    ∧ (metadata.type = .multi →
         d.kind = .multi
         ∧ (∃ num, pyIndex target "number" = .ok num
              ∧ d.title = .str (pyStr metadata.title ++ " - Episode " ++ pyStr num))
         ∧ (∃ subs, d.subtitles = some (.dict subs))
         ∧ d.episode = some sel)
    ∧ (metadata.type = .single →
         d.kind = .single ∧ d.title = metadata.title ∧ d.subtitles = none
         ∧ d.year = some metadata.year) := by
  simp only [hianimeResolve] at h
  rw [exceptBind_eq_ok] at h
  obtain ⟨epId2, hEp2, h⟩ := h
  rw [hEp] at hEp2
  cases hEp2
  rw [exceptBind_eq_ok] at h
  obtain ⟨missing, hm, h⟩ := h
  rw [hMiss] at hm
  cases hm
  simp only [Bool.false_eq_true, if_false] at h
  rw [exceptBind_eq_ok] at h
  obtain ⟨d2, hd2, h⟩ := h
  rw [exceptBind_eq_ok] at h
  obtain ⟨srcs, hsrcs, h⟩ := h
  rw [exceptBind_eq_ok] at h
  obtain ⟨first, hfirst, h⟩ := h
  rw [exceptBind_eq_ok] at h
  obtain ⟨videoUrl, hurl, h⟩ := h
  rw [exceptBind_eq_ok] at h
  obtain ⟨hasTracks, htr, h⟩ := h
  cases hasTracks
  · simp only [Bool.false_eq_true, if_false] at h
    rw [exceptBind_eq_ok] at h
    obtain ⟨subs, hsubs, h⟩ := h
    by_cases hmt : metadata.type = .multi
    · simp only [hmt, if_pos] at h
      rw [exceptBind_eq_ok] at h
      obtain ⟨num, hnum, h⟩ := h
      simp only [Pure.pure, Except.pure] at h
      cases h
      refine ⟨rfl, fun _ => ⟨rfl, ⟨num, hnum, rfl⟩, ⟨subs, rfl⟩, rfl⟩, fun hs => ?_⟩
      rw [hmt] at hs
      exact absurd hs (by decide)
    · simp only [hmt, if_neg, if_false] at h
      simp only [Pure.pure, Except.pure] at h
      cases h
      exact ⟨rfl, fun hm2 => absurd hm2 hmt, fun _ => ⟨rfl, rfl, rfl, rfl⟩⟩
  · simp only [if_pos] at h
    rw [exceptBind_eq_ok] at h
    obtain ⟨tracks, htracks, h⟩ := h
    rw [exceptBind_eq_ok] at h
    obtain ⟨tl, htl, h⟩ := h
    rw [exceptBind_eq_ok] at h
    obtain ⟨subs, hsubs, h⟩ := h
    by_cases hmt : metadata.type = .multi
    · simp only [hmt, if_pos] at h
      rw [exceptBind_eq_ok] at h
      obtain ⟨num, hnum, h⟩ := h
      simp only [Pure.pure, Except.pure] at h
      cases h
      refine ⟨rfl, fun _ => ⟨rfl, ⟨num, hnum, rfl⟩, ⟨subs, rfl⟩, rfl⟩, fun hs => ?_⟩
      rw [hmt] at hs
      exact absurd hs (by decide)
    · simp only [hmt, if_neg, if_false] at h
      simp only [Pure.pure, Except.pure] at h
      cases h
      exact ⟨rfl, fun hm2 => absurd hm2 hmt, fun _ => ⟨rfl, rfl, rfl, rfl⟩⟩

/-- Shape of every successful HTML-adapter resolution: no referrer is
passed at all, an (empty) subtitles list is passed for `Multi` and for
`Single`, `Multi` carries the suffixed title, `Single` the plain catalog
title. -/
theorem paheResolve_ok_shape (metadata : Metadata) (sel : Option EpisodeSelector)
    (target : JsonVal) (page : JsonVal → HtmlPage) (d : Descriptor)
    (h : paheResolve metadata sel target page = .ok d) :
    d.referrer = none
    ∧ d.subtitles = some (.list [])
    ∧ (metadata.type = .multi →
         d.kind = .multi
         ∧ (∃ et, d.title = .str (pyStr metadata.title ++ " - " ++ pyStr et))
         ∧ d.episode = some sel)
    ∧ (metadata.type = .single → d.kind = .single ∧ d.title = metadata.title) := by
  simp only [paheResolve] at h
  rw [exceptBind_eq_ok] at h
  obtain ⟨session, hsess, h⟩ := h
  cases hpd : (page session).pickDownload with
  | none =>
    rw [hpd] at h
    simp [Except.bind, Bind.bind] at h
  | some dls =>
    rw [hpd] at h
    cases hrm : (page session).resolutionMenu with
    | none =>
      rw [hrm] at h
      simp [Except.bind, Bind.bind, Pure.pure, Except.pure] at h
    | some embs =>
      rw [hrm] at h
      cases dls with
      | nil => simp [Except.bind, Bind.bind, Pure.pure, Except.pure] at h
      | cons dl0 rest =>
        simp only [Except.bind, Bind.bind, Pure.pure, Except.pure] at h
        cases hhd : embs.head? with
        | none =>
          rw [hhd] at h
          simp [Except.bind, Bind.bind, Pure.pure, Except.pure] at h
        | some b =>
          rw [hhd] at h
          cases sel with
          | none => simp [Except.bind, Bind.bind, Pure.pure, Except.pure] at h
          | some s =>
            simp only [Except.bind, Bind.bind, Pure.pure, Except.pure] at h
            cases het : pyGet target "episode"
                (JsonVal.str ("Episode " ++ toString s.episode)) with
            | error e =>
              rw [het] at h
              simp at h
            | ok et =>
              rw [het] at h
              by_cases hmt : metadata.type = .multi
              · simp only [hmt, if_pos] at h
                cases h
                refine ⟨rfl, rfl, fun _ => ⟨rfl, ⟨et, rfl⟩, rfl⟩, fun hs => ?_⟩
                rw [hmt] at hs
                exact absurd hs (by decide)
              · simp only [hmt, if_neg, if_false] at h
                cases h
                exact ⟨rfl, rfl, fun hm2 => absurd hm2 hmt, fun _ => ⟨rfl, rfl⟩⟩

/-- Claim C9, counterexample: a fully successful HTML-adapter resolution
of a `Single` entry passes no referrer (so the referrer is not the fixed
site-origin string) and does pass a subtitles argument to `Single`. -/
theorem pahe_descriptor_referrer_counterexample :
    paheScrape { id := .str "a", title := .str "T", type := .single }
        (some { episode := 1 })
        (.obj [("data", .arr [.obj [("episode", .str "Episode 1"), ("session", .str "s1")]])])
        (fun _ => { pickDownload := some [{ attrs := [("href", "https://files/ep1.mp4")] }],
                    resolutionMenu := some [{ attrs := [("data-src", "https://embed/e1")] }] })
      = .ok { kind := .single, url := .str "https://files/ep1.mp4", title := .str "T",
              referrer := none, episode := none, year := none,
              subtitles := some (.list []) } := rfl

/-- Claim C9 (amended): on a successful resolution, the JSON-API adapter
suffixes the catalog title with the episode label for `Multi`, sets the
fixed referrer "https://hianime.to" and attaches subtitles only to
`Multi`; the HTML-scraping adapter suffixes the title for `Multi` but
sets no referrer at all and passes an (empty) subtitles list to both
`Multi` and `Single` descriptors. -/
theorem descriptor_assembly :
    (∀ (metadata : Metadata) (sel : Option EpisodeSelector) (target : JsonVal)
       (sources : JsonVal → JsonVal) (epId : JsonVal) (d : Descriptor),
       pyIndex target "episodeId" = .ok epId →
       hianimeMissing (sources epId) "sources" = .ok false →
       hianimeResolve metadata sel target sources = .ok d →
       d.referrer = some "https://hianime.to"
       ∧ (metadata.type = .multi →
            d.kind = .multi
            ∧ (∃ num, pyIndex target "number" = .ok num
                 ∧ d.title = .str (pyStr metadata.title ++ " - Episode " ++ pyStr num))
            ∧ (∃ subs, d.subtitles = some (.dict subs))
            ∧ d.episode = some sel)
       ∧ (metadata.type = .single →
            d.kind = .single ∧ d.title = metadata.title ∧ d.subtitles = none
            ∧ d.year = some metadata.year))
    ∧ (∀ (metadata : Metadata) (sel : Option EpisodeSelector) (target : JsonVal)
       (page : JsonVal → HtmlPage) (d : Descriptor),
       paheResolve metadata sel target page = .ok d →
       d.referrer = none
       ∧ d.subtitles = some (.list [])
       ∧ (metadata.type = .multi →
            d.kind = .multi
            ∧ (∃ et, d.title = .str (pyStr metadata.title ++ " - " ++ pyStr et))
            ∧ d.episode = some sel)
       ∧ (metadata.type = .single → d.kind = .single ∧ d.title = metadata.title)) :=
  ⟨hianimeResolve_ok_shape, paheResolve_ok_shape⟩

/-- Witness for `descriptor_assembly` at a concrete successful resolution
of each adapter. -/
theorem descriptor_assembly_witness :
    ({ kind := .multi, url := .str "https://x/vid.m3u8",
       title := .str (pyStr (.str "T") ++ " - Episode " ++ pyStr (.int 1)),
       referrer := some "https://hianime.to",
       episode := some (some { episode := 1 }),
       subtitles := some (.dict []) } : Descriptor).referrer = some "https://hianime.to"
    ∧ ({ kind := .single, url := .str "https://files/ep1.mp4", title := .str "T",
         referrer := none, episode := none, year := none,
         subtitles := some (.list []) } : Descriptor).subtitles = some (.list []) :=
  ⟨(descriptor_assembly.1
      { id := .str "a", title := .str "T", type := .multi } (some { episode := 1 })
      (.obj [("number", .int 1), ("episodeId", .str "e1")])
      (fun _ => .obj [("data", .obj [("sources", .arr [.obj [("url", .str "https://x/vid.m3u8")]]),
         ("tracks", .arr [])])])
      (.str "e1") _ rfl rfl rfl).1,
   (descriptor_assembly.2
      { id := .str "a", title := .str "T", type := .single } (some { episode := 1 })
      (.obj [("episode", .str "Episode 1"), ("session", .str "s1")])
      (fun _ => { pickDownload := some [{ attrs := [("href", "https://files/ep1.mp4")] }],
                  resolutionMenu := some [{ attrs := [("data-src", "https://embed/e1")] }] })
      _ rfl).2.1⟩

/-! ### Claim C10 -/

/-- The `AnimePaheScraper.scrape_episodes` fold only ever holds the empty
map or a single entry at key `1`. -/
theorem paheFold_shape (eps : List JsonVal) :
    ∀ (m m' : List (JsonVal × Int)),
      (m = [] ∨ ∃ v, m = [(.int 1, v)]) →
      eps.foldlM paheEpisodesStep m = .ok m' →
      m' = [] ∨ ∃ v, m' = [(.int 1, v)] := by
  induction eps with
  | nil =>
    intro m m' hm h
    simp only [List.foldlM_nil, Pure.pure, Except.pure] at h
    cases h
    exact hm
  | cons e rest ih =>
    intro m m' hm h
    rw [List.foldlM_cons, exceptBind_eq_ok] at h
    obtain ⟨m2, hstep, h⟩ := h
    simp only [paheEpisodesStep] at hstep
    rw [exceptBind_eq_ok] at hstep
    obtain ⟨n, hn, hset⟩ := hstep
    rcases hm with hm | ⟨v, hm⟩ <;> subst hm
    · simp only [pyDictSet, pyHashable, if_pos] at hset
      simp only [List.any_nil, Bool.false_eq_true, if_false, List.nil_append] at hset
      cases hset
      exact ih _ m' (Or.inr ⟨Int.ofNat n, rfl⟩) h
    · simp only [pyDictSet, pyHashable, if_pos] at hset
      simp only [keyEq, List.any_cons, List.any_nil] at hset
      simp at hset
      cases hset
      exact ih _ m' (Or.inr ⟨Int.ofNat n, rfl⟩) h

/-- Starting from a single entry at key `1`, the fold keeps exactly key
`1`, whose value becomes the number parsed from the last element. -/
theorem paheFold_last (eps : List JsonVal) (ns : List Nat)
    (hfa : List.Forall₂ (fun e n => paheParseEpisodeField e = .ok n) eps ns) :
    ∀ (k : Int),
      eps.foldlM paheEpisodesStep [(.int 1, k)]
        = .ok [(.int 1, (ns.map Int.ofNat).getLastD k)] := by
  induction hfa with
  | nil => intro k; rfl
  | @cons e n l1 l2 he hrest ih =>
    intro k
    rw [List.foldlM_cons]
    have hstep : paheEpisodesStep [(.int 1, k)] e = .ok [(.int 1, Int.ofNat n)] := by
      simp only [paheEpisodesStep, he, exceptOk_bind]
      rfl
    rw [hstep, exceptOk_bind, ih, List.map_cons, List.getLastD_cons]

/-- Claim C10: the HTML-scraping `scrape_episodes` returns a mapping with
at most one key: the sentinel `{None: 1}` when the listing is empty, and
otherwise exactly `{1: n}` where `n` is the episode number parsed from
the last listing element — each element writes to the constant key `1`
rather than to its own episode number. -/
theorem pahe_episode_map_single_key :
    (∀ metadata, paheScrapeEpisodes metadata (.obj [("data", .arr [])]) = .ok [(.null, 1)])
    ∧ (∀ (metadata : Metadata) (response : JsonVal) (m : List (JsonVal × Int)),
       paheScrapeEpisodes metadata response = .ok m →
       m = [(.null, 1)] ∨ ∃ v, m = [(.int 1, v)])
    ∧ (∀ (metadata : Metadata) (eps : List JsonVal) (ns : List Nat),
       List.Forall₂ (fun e n => paheParseEpisodeField e = .ok n) eps ns →
       eps ≠ [] →
       paheScrapeEpisodes metadata (.obj [("data", .arr eps)])
         = .ok [(.int 1, (ns.map Int.ofNat).getLastD 0)]) := by
  refine ⟨fun _ => rfl, ?_, ?_⟩
  · intro metadata response m h
    simp only [paheScrapeEpisodes] at h
    rw [exceptBind_eq_ok] at h
    obtain ⟨data, hdata, h⟩ := h
    rw [exceptBind_eq_ok] at h
    obtain ⟨eps, heps, h⟩ := h
    rw [exceptBind_eq_ok] at h
    obtain ⟨epMap, hfold, h⟩ := h
    have hshape := paheFold_shape eps [] epMap (Or.inl rfl) hfold
    rcases hshape with hsh | ⟨v, hsh⟩ <;> subst hsh
    · simp only [List.isEmpty_nil, if_true, Pure.pure, Except.pure, Except.ok.injEq] at h
      exact Or.inl h.symm
    · simp only [List.isEmpty_cons, Bool.false_eq_true, if_false, Pure.pure,
        Except.pure, Except.ok.injEq] at h
      exact Or.inr ⟨v, h.symm⟩
  · intro metadata eps ns hfa hne
    cases hfa with
    | nil => exact absurd rfl hne
    | @cons e n l1 l2 he hrest =>
      simp only [paheScrapeEpisodes]
      rw [show pyGet (JsonVal.obj [("data", .arr (e :: l1))]) "data" (.arr [])
            = .ok (.arr (e :: l1)) from rfl, exceptOk_bind]
      rw [show pyToList (JsonVal.arr (e :: l1)) = .ok (e :: l1) from rfl, exceptOk_bind]
      rw [List.foldlM_cons]
      have hstep : paheEpisodesStep [] e = .ok [(.int 1, Int.ofNat n)] := by
        simp only [paheEpisodesStep, he, exceptOk_bind]
        rfl
      rw [hstep, exceptOk_bind, paheFold_last l1 l2 hrest (Int.ofNat n), exceptOk_bind,
        List.map_cons, List.getLastD_cons]
      rfl

/-- Witness for `pahe_episode_map_single_key`: a two-element listing with
episodes 3 and 7 maps to exactly the single entry at key 1 holding 7, the
number parsed from the last element. -/
theorem pahe_episode_map_single_key_witness :
    paheScrapeEpisodes { id := .str "a", title := .str "T", type := .multi }
        (.obj [("data", .arr [.obj [("episode", .str "Episode 3"), ("session", .str "s3")],
                               .obj [("episode", .str "Episode 7"), ("session", .str "s7")]])])
      = .ok [(.int 1, (([3, 7] : List Nat).map Int.ofNat).getLastD 0)] :=
  pahe_episode_map_single_key.2.2 _ _ [3, 7]
    (List.Forall₂.cons rfl (List.Forall₂.cons rfl List.Forall₂.nil))
    (List.cons_ne_nil _ _)

end HiAnimeCli
